import Mathlib

/-!
Shallow embedding of the vanity-sniper gateway client (src/src/index.ts).

The JavaScript `Map` is modelled as an insertion-ordered association list
(`JsMap`), JS `undefined`/`null` values as `Option`, and JS truthiness tests
as explicit `jsTruthy*` functions.  The claim race (`Client.snipe`) is
modelled as a pure function consuming an oracle list of HTTP responses (one
per attempt); the dispatch handlers (`Client.onDispatch`, `Client.onMessage`)
are pure state transformers that additionally emit the list of claim-race
invocations they perform (in the source, `this.snipe(...)` is a floating
promise, so the handler returns before the race runs).
-/

set_option maxRecDepth 4096

/-- Insertion-ordered association list modelling a JavaScript `Map`. -/
abbrev JsMap (α : Type) := List (String × α)

/-- `Map.get`: first entry with the given key. -/
def jsGet {α : Type} (m : JsMap α) (k : String) : Option α :=
  (m.find? (fun p => p.1 == k)).map (fun p => p.2)

/-- `Map.set`: replace in place if present, otherwise append (insertion order). -/
def jsSet {α : Type} (m : JsMap α) (k : String) (v : α) : JsMap α :=
  if m.any (fun p => p.1 == k) then
    m.map (fun p => if p.1 == k then (k, v) else p)
  else
    m ++ [(k, v)]

/-- `Map.delete`. -/
def jsDelete {α : Type} (m : JsMap α) (k : String) : JsMap α :=
  m.filter (fun p => !(p.1 == k))

/-- JS truthiness of a nullable string (`null`/`undefined` and `""` are falsy). -/
def jsTruthyStr : Option String → Bool
  | none => false
  | some s => !(s == "")

/-- JS truthiness of a nullable non-negative number (`null`/`undefined` and `0` are falsy). -/
def jsTruthyNat : Option Nat → Bool
  | none => false
  | some n => !(n == 0)

/-- JS truthiness of a nullable integer (`null`/`undefined` and `0` are falsy). -/
def jsTruthyInt : Option Int → Bool
  | none => false
  | some n => !(n == 0)

/-- JS template-literal rendering of a nullable string (`null` prints as "null"). -/
def jsTemplate : Option String → String
  | none => "null"
  | some s => s

/-- A guild as carried by gateway payloads: `{ id, name, vanity_url_code }`. -/
structure Guild where
  id : String
  name : String
  vanity_url_code : Option String
deriving DecidableEq, Repr

/-- The slice of the bot user object the client stores. -/
structure User where
  username : String
deriving DecidableEq, Repr

/-- Connection states referenced by the client (`~/constants`, file not in src).
Modelled from the spec: section 4.2 lists the state machine's states; the code
additionally references `DISCOVERING` in `reconnect`. -/
inductive ConnectionState where
  | IDLE
  | CONNECTING
  | CONNECTED
  | IDENTIFYING
  | RESUMING
  | DISCONNECTED
  | DISCOVERING
deriving DecidableEq, Repr

/-- The claim pool.  `config.guilds` (active pool) and `this.rotatedGuilds`
start as two distinct arrays; the refill step `config.guilds = this.rotatedGuilds`
aliases them to one shared array, after which every mutation through either
name acts on the same list.  The two constructors record exactly that heap
shape. -/
inductive Pool where
  | separate (active rotatedGuilds : List String)
  | shared (arr : List String)
deriving DecidableEq, Repr

/-- The list `config.guilds` currently denotes. -/
def Pool.guilds : Pool → List String
  | Pool.separate g _ => g
  | Pool.shared l => l

/-- The list `this.rotatedGuilds` currently denotes. -/
def Pool.rotated : Pool → List String
  | Pool.separate _ r => r
  | Pool.shared l => l

/-- Success mutation `this.rotatedGuilds.push(config.guilds.shift())`:
remove the head of the active pool and append it to the rotated list.
(The shift-on-empty case is unreachable: the termination guard and refill
ensure the active pool is non-empty at this point.) -/
def Pool.rotateOut : Pool → Pool
  | Pool.separate [] r => Pool.separate [] r
  | Pool.separate (h :: t) r => Pool.separate t (r ++ [h])
  | Pool.shared [] => Pool.shared []
  | Pool.shared (h :: t) => Pool.shared (t ++ [h])

/-- Static configuration consumed by the client (`~/config`, values external). -/
structure Config where
  rotateGuilds : Bool
  retries : Int
  exitOnSnipe : Bool
  ignoreHostGuilds : Bool
  sameGuildSnipeTimeout : Nat
deriving DecidableEq, Repr

/-- Decoded body and status of one REST mutation response.  `code` is the
applied vanity code on success (`none` when absent or non-string), `retry_after`
the rate-limit hint in milliseconds. -/
structure Response where
  statusCode : Nat
  retry_after : Option Nat
  code : Option String
  message : Option String
deriving DecidableEq, Repr

/-- The part of client state the claim race reads and writes. -/
structure SnipeState where
  pool : Pool
  sameGuildIntervals : JsMap Nat
deriving DecidableEq, Repr

/-- Observable outcome of one `snipe` call (including its recursive retries). -/
structure SnipeOutcome where
  final : SnipeState
  exited : Option Nat
  sleeps : List Nat
  webhookMessages : List String
  consumed : List String
  abandoned : Bool
  pending : Bool
deriving DecidableEq, Repr

/-- Termination guard of `snipe`: no claim targets remain available. -/
def noTargets (cfg : Config) (st : SnipeState) : Bool :=
  (!cfg.rotateGuilds && st.pool.guilds.isEmpty)
    || (cfg.rotateGuilds && st.pool.guilds.isEmpty && st.pool.rotated.isEmpty)

/-- The success test `json.code === vanity` (strict equality of nullable
strings: any comparison involving `null`/`undefined` is false). -/
def vanityMatches (code vanity : Option String) : Bool :=
  match vanity, code with
  | some v, some c => c == v
  | _, _ => false

/-- `Client.snipe(vanity, id, tries)` (index.ts lines 322-372), with the HTTP
responses supplied as an oracle list, one per issued request.  Faithful
details: the retry branch tests `config.retries < tries` and recurses with
`tries++`, which evaluates to the OLD value, so the counter passed down never
changes; the rate-limit give-up branch returns before the cool-down is set;
`process.exit` aborts the call before the cool-down assignment as well. -/
def snipeAux (cfg : Config) (vanity : Option String) (id : String) (now : Nat)
    (responses : List Response) (tries : Int) (st : SnipeState) : SnipeOutcome :=
  if noTargets cfg st then
    { final := st, exited := some 0, sleeps := [], webhookMessages := [],
      consumed := [], abandoned := false, pending := false }
  else
    let st1 := if st.pool.guilds.isEmpty && cfg.rotateGuilds then
        { st with pool := Pool.shared st.pool.rotated }
      else st
    match responses with
    | [] =>
      { final := st1, exited := none, sleeps := [], webhookMessages := [],
        consumed := [], abandoned := false, pending := true }
    | resp :: rest =>
      if resp.statusCode == 429 && jsTruthyNat resp.retry_after then
        let ra := resp.retry_after.getD 0
        if cfg.retries < tries then
          let out := snipeAux cfg vanity id now rest tries st1
          { out with sleeps := ra :: out.sleeps }
        else
          { final := st1, exited := none, sleeps := [ra], webhookMessages := [],
            consumed := [], abandoned := true, pending := false }
      else if vanityMatches resp.code vanity then
        let shifted := st1.pool.guilds.head?
        let st2 := { st1 with pool := st1.pool.rotateOut }
        let msgs := ["Sniped https://discord.gg/" ++ jsTemplate vanity]
        if cfg.exitOnSnipe then
          { final := st2, exited := some 0, sleeps := [], webhookMessages := msgs,
            consumed := shifted.toList, abandoned := false, pending := false }
        else
          { final := { st2 with
              sameGuildIntervals :=
                jsSet st2.sameGuildIntervals id (now + cfg.sameGuildSnipeTimeout) },
            exited := none, sleeps := [], webhookMessages := msgs,
            consumed := shifted.toList, abandoned := false, pending := false }
      else
        { final := { st1 with
            sameGuildIntervals :=
              jsSet st1.sameGuildIntervals id (now + cfg.sameGuildSnipeTimeout) },
          exited := none, sleeps := [], webhookMessages := [],
          consumed := [], abandoned := false, pending := false }

/-- The cool-down gate `!interval || (interval && interval <= Date.now())`. -/
def cooldownPassed (interval : Option Nat) (now : Nat) : Bool :=
  match interval with
  | none => true
  | some iv => (iv == 0) || decide (iv ≤ now)

/-- Payload of a `READY` dispatch. -/
structure ReadyData where
  session_id : String
  user : User
  guilds : List Guild
deriving DecidableEq, Repr

/-- Payload of a `GUILD_DELETE` dispatch (the code reads `payload.d.guild_id`). -/
structure DeleteData where
  guild_id : String
deriving DecidableEq, Repr

/-- A dispatch frame's event name together with its payload. -/
inductive DispatchEvent where
  | ready (d : ReadyData)
  | guildUpdate (d : Guild)
  | guildDelete (d : DeleteData)
  | guildCreate (d : Option Guild)
  | resumed
  | other
deriving DecidableEq, Repr

/-- One recorded invocation of the claim race: `this.snipe(vanity, id)`. -/
structure SnipeCall where
  vanity : Option String
  id : String
deriving DecidableEq, Repr

/-- The mutable per-session state of `Client` touched by message handling. -/
structure ClientState where
  guilds : JsMap Guild
  sameGuildIntervals : JsMap Nat
  pool : Pool
  sessionId : Option String
  sequence : Option Int
  lastHeartbeatAckTime : Option Nat
  heartbeatInterval : Option Nat
  user : Option User
  attempts : Nat
  state : Option ConnectionState
deriving DecidableEq, Repr

/-- `Client.onDispatch` (index.ts lines 140-220): state update plus the list
of claim-race invocations fired by this event. -/
def onDispatch (cfg : Config) (now : Nat) (st : ClientState) :
    DispatchEvent → ClientState × List SnipeCall
  | DispatchEvent.ready d =>
    let filtered := d.guilds.foldl
      (fun m g => if jsTruthyStr g.vanity_url_code then jsSet m g.id g else m) []
    ({ st with sessionId := some d.session_id, user := some d.user,
               guilds := filtered, state := some ConnectionState.CONNECTED,
               attempts := 0 }, [])
  | DispatchEvent.guildUpdate g =>
    let persisted := jsGet st.guilds g.id
    let interval := jsGet st.sameGuildIntervals g.id
    let st1 := { st with guilds := jsSet st.guilds g.id g }
    match persisted with
    | none => (st1, [])
    | some p =>
      if p.vanity_url_code == g.vanity_url_code then (st1, [])
      else if cfg.ignoreHostGuilds && st.pool.guilds.contains g.id then (st1, [])
      else if cooldownPassed interval now then
        ({ st1 with sameGuildIntervals := jsDelete st1.sameGuildIntervals g.id },
         [{ vanity := p.vanity_url_code, id := g.id }])
      else (st1, [])
  | DispatchEvent.guildDelete d =>
    match jsGet st.guilds d.guild_id with
    | none => (st, [])
    | some guild =>
      let interval := jsGet st.sameGuildIntervals guild.id
      let st1 := { st with guilds := jsDelete st.guilds guild.id }
      if cfg.ignoreHostGuilds && st.pool.guilds.contains guild.id then (st1, [])
      else if cooldownPassed interval now then
        ({ st1 with sameGuildIntervals := jsDelete st1.sameGuildIntervals guild.id },
         [{ vanity := guild.vanity_url_code, id := guild.id }])
      else (st1, [])
  | DispatchEvent.guildCreate g? =>
    match g? with
    | none => (st, [])
    | some g =>
      if jsTruthyStr g.vanity_url_code then
        ({ st with guilds := jsSet st.guilds g.id g }, [])
      else (st, [])
  | DispatchEvent.resumed =>
    ({ st with state := some ConnectionState.CONNECTED, attempts := 0 }, [])
  | DispatchEvent.other => (st, [])

/-- Gateway opcode numbers (`~/constants`, file not in src).
Modelled from the spec: section 6 names the opcodes in use; the numeric
values follow the wire protocol, only their distinctness matters here. -/
def OPCodes.DISPATCH : Nat := 0
def OPCodes.HEARTBEAT : Nat := 1
def OPCodes.IDENTIFY : Nat := 2
def OPCodes.RESUME : Nat := 6
def OPCodes.RECONNECT : Nat := 7
def OPCodes.INVALID_SESSION : Nat := 9
def OPCodes.HELLO : Nat := 10
def OPCodes.HEARTBEAT_ACK : Nat := 11

/-- The `d` field of an inbound frame, as a shape tagged by what the handlers
read from it (`empty` models `null`/absent). -/
inductive FramePayload where
  | hello (heartbeat_interval : Nat)
  | flag (b : Bool)
  | dispatch (e : DispatchEvent)
  | empty
deriving DecidableEq, Repr

/-- JS truthiness of a frame payload: objects are truthy, `null`/absent falsy. -/
def FramePayload.jsTruthy : FramePayload → Bool
  | FramePayload.flag b => b
  | FramePayload.empty => false
  | FramePayload.hello _ => true
  | FramePayload.dispatch _ => true

/-- A parsed inbound gateway frame `{op, d, s}` (the event name `t` is folded
into the dispatch payload variant). -/
structure Frame where
  op : Nat
  s : Option Int
  d : FramePayload
deriving DecidableEq, Repr

/-- The opcode switch of `Client.onMessage` (index.ts lines 57-83), together
with the state effects of the handlers it calls: `onHello` records the
heartbeat interval; `HEARTBEAT_ACK` records the ack time; `INVALID_SESSION`
runs `resume()` when `payload.d` is truthy, else `identify()` (which resets
the sequence to 0 and clears the session id); `RECONNECT` runs `reconnect()`
(destroy clears the session id, state becomes DISCOVERING, `createSocket`
increments the attempt counter); `DISPATCH` routes to `onDispatch`.
Timer and socket operations are real-time effects outside the state model. -/
def handleOp (cfg : Config) (now : Nat) (f : Frame) (st : ClientState) :
    ClientState × List SnipeCall :=
  if f.op == OPCodes.HELLO then
    match f.d with
    | FramePayload.hello hi => ({ st with heartbeatInterval := some hi }, [])
    | _ => ({ st with heartbeatInterval := none }, [])
  else if f.op == OPCodes.HEARTBEAT_ACK then
    ({ st with lastHeartbeatAckTime := some now }, [])
  else if f.op == OPCodes.INVALID_SESSION then
    if f.d.jsTruthy then
      ({ st with state := some ConnectionState.RESUMING }, [])
    else
      ({ st with sequence := some 0, sessionId := none,
                 state := some ConnectionState.IDENTIFYING }, [])
  else if f.op == OPCodes.RECONNECT then
    ({ st with sessionId := none, state := some ConnectionState.DISCOVERING,
               attempts := st.attempts + 1 }, [])
  else if f.op == OPCodes.DISPATCH then
    match f.d with
    | FramePayload.dispatch e => onDispatch cfg now st e
    | _ => (st, [])
  else (st, [])

/-- The sequence-number update `if (payload.s) this.sequence = payload.s;`
that opens `Client.onMessage` (index.ts lines 53-55). -/
def seqUpdate (f : Frame) (st : ClientState) : ClientState :=
  if jsTruthyInt f.s then { st with sequence := f.s } else st

/-- `Client.onMessage` on an already-parsed frame: the sequence update runs
first, then the opcode switch. -/
def onMessage (cfg : Config) (now : Nat) (f : Frame) (st : ClientState) :
    ClientState × List SnipeCall :=
  handleOp cfg now f (seqUpdate f st)

/-- `Client.canResume` (index.ts lines 374-377).  `threshold` is the constant
`HEARTBEAT_MAX_RESUME_THRESHOLD` from `~/constants` (file not in src; its
value does not matter here, so it is a parameter). -/
def canResume (threshold now : Nat) (sessionId : Option String)
    (lastHeartbeatAckTime : Option Nat) : Bool :=
  let fresh := match lastHeartbeatAckTime with
    | none => true
    | some t => (t == 0) || decide ((now : Int) - (t : Int) ≤ (threshold : Int))
  sessionId.isSome && fresh

/-- The watch-set invariant claimed by the spec: every tracked guild has a
non-empty vanity code. -/
def watchInvariant (m : JsMap Guild) : Bool :=
  m.all (fun p => jsTruthyStr p.2.vanity_url_code)

/-! ### Concrete states used by witnesses and counterexamples -/

/-- A sample configuration: rotation off, retry ceiling 3, no exit-on-snipe. -/
def cfg0 : Config :=
  { rotateGuilds := false, retries := 3, exitOnSnipe := false,
    ignoreHostGuilds := false, sameGuildSnipeTimeout := 30000 }

/-- Same configuration with a negative retry ceiling (makes the code's
`config.retries < tries` test pass at `tries = 0`). -/
def cfgNeg : Config := { cfg0 with retries := -1 }

/-- A rate-limited response carrying `retry_after = 500`. -/
def rl500 : Response :=
  { statusCode := 429, retry_after := some 500, code := none, message := none }

/-- A successful response whose applied code is "abc". -/
def okResp : Response :=
  { statusCode := 200, retry_after := none, code := some "abc", message := none }

/-- A conflict response (vanity already taken). -/
def conflictResp : Response :=
  { statusCode := 400, retry_after := none, code := none, message := some "taken" }

/-- A snipe state with two active targets and one already-rotated target. -/
def st1 : SnipeState :=
  { pool := Pool.separate ["host1", "host2"] ["old1"], sameGuildIntervals := [] }

/-- A snipe state with no targets at all. -/
def stEmpty : SnipeState :=
  { pool := Pool.separate [] [], sameGuildIntervals := [] }

/-- A watched guild whose vanity is "abc". -/
def gAbc : Guild := { id := "g1", name := "GuildOne", vanity_url_code := some "abc" }

/-- The same guild after its vanity changed to "xyz". -/
def gXyz : Guild := { id := "g1", name := "GuildOne", vanity_url_code := some "xyz" }

/-- A guild carrying no vanity code. -/
def gNoVan : Guild := { id := "g2", name := "GuildTwo", vanity_url_code := none }

/-- A client state tracking `gAbc`, with an empty cool-down map. -/
def stA : ClientState :=
  { guilds := [("g1", gAbc)], sameGuildIntervals := [], pool := Pool.separate ["h1"] [],
    sessionId := some "sess", sequence := some 1, lastHeartbeatAckTime := some 5,
    heartbeatInterval := some 41250, user := some ⟨"u"⟩, attempts := 0,
    state := some ConnectionState.CONNECTED }

/-- `stA` with a cool-down entry for "g1" expiring at time 100. -/
def stCool : ClientState := { stA with sameGuildIntervals := [("g1", 100)] }

/-- A heartbeat-ack frame carrying sequence number 0. -/
def frameS0 : Frame := { op := OPCodes.HEARTBEAT_ACK, s := some 0, d := FramePayload.empty }

/-- A heartbeat-ack frame carrying sequence number 3. -/
def frameS3 : Frame := { op := OPCodes.HEARTBEAT_ACK, s := some 3, d := FramePayload.empty }

/-! ### Helper lemmas about the JsMap operations -/

lemma jsGet_map_set {α : Type} (m : JsMap α) (k : String) (v : α)
    (h : m.any (fun p => p.1 == k) = true) :
    jsGet (m.map (fun p => if p.1 == k then (k, v) else p)) k = some v := by
  induction m with
  | nil => simp at h
  | cons q m ih =>
    by_cases hq : (q.1 == k) = true
    · simp [jsGet, List.find?, hq]
    · simp only [List.any_cons, Bool.or_eq_true] at h
      rcases h with h | h
      · exact absurd h hq
      · simpa [jsGet, List.find?, hq] using ih h

lemma jsGet_append_single {α : Type} (m : JsMap α) (k : String) (v : α)
    (h : m.any (fun p => p.1 == k) = false) :
    jsGet (m ++ [(k, v)]) k = some v := by
  induction m with
  | nil => simp [jsGet, List.find?]
  | cons q m ih =>
    simp only [List.any_cons, Bool.or_eq_false_iff] at h
    simpa [jsGet, List.find?, h.1] using ih h.2

lemma jsGet_jsSet {α : Type} (m : JsMap α) (k : String) (v : α) :
    jsGet (jsSet m k v) k = some v := by
  unfold jsSet
  by_cases h : m.any (fun p => p.1 == k) = true
  · rw [if_pos h]; exact jsGet_map_set m k v h
  · rw [if_neg h]; exact jsGet_append_single m k v (Bool.eq_false_iff.mpr h)

lemma jsGet_jsDelete {α : Type} (m : JsMap α) (k : String) :
    jsGet (jsDelete m k) k = none := by
  induction m with
  | nil => rfl
  | cons q m ih =>
    by_cases hq : (q.1 == k) = true
    · simp only [jsDelete, List.filter, hq, Bool.not_true] at ih ⊢
      exact ih
    · simp only [Bool.not_eq_true] at hq
      simp only [jsDelete, List.filter, hq, Bool.not_false, jsGet, List.find?] at ih ⊢
      exact ih

lemma all_jsSet {α : Type} (m : JsMap α) (k : String) (v : α)
    (P : String × α → Bool)
    (hm : m.all P = true) (hv : P (k, v) = true) :
    (jsSet m k v).all P = true := by
  unfold jsSet
  split
  · rw [List.all_map]
    rw [List.all_eq_true] at hm ⊢
    intro x hx
    by_cases hxk : (x.1 == k) = true
    · simpa [Function.comp, hxk] using hv
    · simp only [Bool.not_eq_true] at hxk
      simpa [Function.comp, hxk] using hm x hx
  · rw [List.all_append]
    simp [hm, hv]

lemma all_jsDelete {α : Type} (m : JsMap α) (k : String)
    (P : String × α → Bool) (hm : m.all P = true) :
    (jsDelete m k).all P = true := by
  rw [List.all_eq_true] at hm ⊢
  intro x hx
  exact hm x (List.mem_of_mem_filter hx)

lemma watchInvariant_fold (l : List Guild) (m : JsMap Guild)
    (hm : watchInvariant m = true) :
    watchInvariant (l.foldl
      (fun m g => if jsTruthyStr g.vanity_url_code then jsSet m g.id g else m) m)
      = true := by
  induction l generalizing m with
  | nil => exact hm
  | cons g l ih =>
    simp only [List.foldl_cons]
    by_cases hg : jsTruthyStr g.vanity_url_code = true
    · rw [if_pos hg]
      exact ih _ (all_jsSet m g.id g _ hm hg)
    · rw [if_neg hg]
      exact ih _ hm

lemma ignore_gate_false (cfg : Config) (l : List String) (k : String)
    (h : (cfg.ignoreHostGuilds && l.contains k) = false) :
    ¬(cfg.ignoreHostGuilds = true ∧ k ∈ l) := by
  intro hc
  rw [hc.1, Bool.true_and] at h
  exact absurd hc.2 (by simpa using h)

lemma cooldownPassed_future (iv now : Nat) (h : now < iv) :
    cooldownPassed (some iv) now = false := by
  simp only [cooldownPassed, Bool.or_eq_false_iff, decide_eq_false_iff_not, not_le]
  constructor
  · simp only [beq_eq_false_iff_ne, ne_eq]
    omega
  · omega

lemma cooldownPassed_past (iv now : Nat) (h : iv < now) :
    cooldownPassed (some iv) now = true := by
  simp only [cooldownPassed, Bool.or_eq_true, decide_eq_true_eq]
  omega

/-! ### Claim theorems -/

/-- C1: the claim states that a rate-limited response with a retry_after hint
causes a sleep and then a retry with an incremented try counter, up to the
configured ceiling.  In the code the ceiling comparison is `config.retries <
tries`, which is false at `tries = 0` for any non-negative ceiling, so the
candidate is abandoned immediately after a single sleep even though the
ceiling (3) has not been met; and when the comparison does pass (negative
ceiling), the recursion passes `tries++` — the old value — so the counter
never increments and the race never reaches the give-up branch. -/
theorem snipe_rate_limit_abandons_immediately :
    ((0 : Int) < cfg0.retries
      ∧ (snipeAux cfg0 (some "abc") "g1" 1000 [rl500] 0 st1).sleeps = [500]
      ∧ (snipeAux cfg0 (some "abc") "g1" 1000 [rl500] 0 st1).abandoned = true
      ∧ (snipeAux cfg0 (some "abc") "g1" 1000 [rl500] 0 st1).exited = none)
    ∧ ((snipeAux cfgNeg (some "abc") "g1" 1000 [rl500, rl500] 0 st1).sleeps = [500, 500]
      ∧ (snipeAux cfgNeg (some "abc") "g1" 1000 [rl500, rl500] 0 st1).abandoned = false) := by
  decide

/-- C8: whenever the termination guard of `snipe` fires — rotation disabled
and the active pool empty, or rotation enabled and both pools empty — the
process exits with code 0 and nothing else happens (no sleep, no request,
no webhook message, no state change). -/
theorem snipe_exits_when_no_targets (cfg : Config) (vanity : Option String)
    (id : String) (now : Nat) (responses : List Response) (tries : Int)
    (st : SnipeState) (h : noTargets cfg st = true) :
    snipeAux cfg vanity id now responses tries st =
      { final := st, exited := some 0, sleeps := [], webhookMessages := [],
        consumed := [], abandoned := false, pending := false } := by
  unfold snipeAux
  rw [if_pos h]

/-- Witness for C8: a concrete snipe call with an empty pool and rotation
disabled exits with code 0. -/
theorem snipe_exits_when_no_targets_witness :
    snipeAux cfg0 (some "abc") "g1" 1000 [] 0 stEmpty =
      { final := stEmpty, exited := some 0, sleeps := [], webhookMessages := [],
        consumed := [], abandoned := false, pending := false } :=
  snipe_exits_when_no_targets cfg0 (some "abc") "g1" 1000 [] 0 stEmpty (by decide)

/-- C10: a GUILD_DELETE dispatch whose guild id is not in the watch set is a
complete no-op: the returned state equals the input state (watch set,
cool-down map and pool included) and no claim race is invoked. -/
theorem guild_delete_untracked_noop (cfg : Config) (now : Nat)
    (st : ClientState) (d : DeleteData)
    (h : jsGet st.guilds d.guild_id = none) :
    onDispatch cfg now st (DispatchEvent.guildDelete d) = (st, []) := by
  simp [onDispatch, h]

/-- Witness for C10: deleting a guild id that is not tracked leaves the
concrete state `stA` untouched and fires no race. -/
theorem guild_delete_untracked_noop_witness :
    onDispatch cfg0 50 stA (DispatchEvent.guildDelete { guild_id := "zz" }) = (stA, []) :=
  guild_delete_untracked_noop cfg0 50 stA { guild_id := "zz" } (by decide)

/-- C9 (amended): for every inbound frame carrying a nonzero sequence number,
the stored sequence number is set to the carried value strictly before the
opcode switch runs, for every opcode; a frame whose carried sequence number
is 0 (or absent) does not update the stored value. -/
theorem sequence_updated_before_handling (cfg : Config) (now : Nat)
    (f : Frame) (st : ClientState) (hs : jsTruthyInt f.s = true) :
    onMessage cfg now f st = handleOp cfg now f { st with sequence := f.s }
    ∧ ({ st with sequence := f.s } : ClientState).sequence = f.s := by
  unfold onMessage seqUpdate
  rw [if_pos hs]
  exact ⟨rfl, rfl⟩

/-- Witness for C9: a heartbeat-ack frame (a non-dispatch opcode) carrying
sequence number 3 is handled from a state whose stored sequence is already 3. -/
theorem sequence_updated_before_handling_witness :
    onMessage cfg0 77 frameS3 stA = handleOp cfg0 77 frameS3 { stA with sequence := frameS3.s }
    ∧ ({ stA with sequence := frameS3.s } : ClientState).sequence = frameS3.s :=
  sequence_updated_before_handling cfg0 77 frameS3 stA (by decide)

/-- Counterexample for C9 as stated: a frame that carries the sequence number
0 does not update the stored sequence number (the code's `if (payload.s)`
treats 0 as absent), so "every frame that carries a sequence number" fails. -/
theorem sequence_zero_not_stored :
    frameS0.s = some 0
    ∧ (onMessage cfg0 77 frameS0 stA).1.sequence = some 1
    ∧ (some (1 : Int)) ≠ some (0 : Int) := by
  decide

/-- C2: when an update event arrives for a tracked guild whose stored vanity
differs from the incoming one, and neither the ignore-list toggle nor the
cool-down suppresses it, the claim race is invoked exactly once with the
previously stored vanity as candidate — which differs from the new value. -/
theorem guild_update_races_previous_alias (cfg : Config) (now : Nat)
    (st : ClientState) (g p : Guild)
    (hp : jsGet st.guilds g.id = some p)
    (hdiff : (p.vanity_url_code == g.vanity_url_code) = false)
    (hign : (cfg.ignoreHostGuilds && st.pool.guilds.contains g.id) = false)
    (hcool : cooldownPassed (jsGet st.sameGuildIntervals g.id) now = true) :
    (onDispatch cfg now st (DispatchEvent.guildUpdate g)).2 =
      [{ vanity := p.vanity_url_code, id := g.id }]
    ∧ p.vanity_url_code ≠ g.vanity_url_code := by
  refine ⟨?_, by simpa [beq_eq_false_iff_ne] using hdiff⟩
  simp [onDispatch, hp, hdiff, hcool, ignore_gate_false cfg st.pool.guilds g.id hign]

/-- Witness for C2: the tracked guild "g1" stores vanity "abc"; an update to
"xyz" races candidate "abc", not "xyz". -/
theorem guild_update_races_previous_alias_witness :
    (onDispatch cfg0 50 stA (DispatchEvent.guildUpdate gXyz)).2 =
      [{ vanity := gAbc.vanity_url_code, id := gXyz.id }]
    ∧ gAbc.vanity_url_code ≠ gXyz.vanity_url_code :=
  guild_update_races_previous_alias cfg0 50 stA gXyz gAbc (by decide) (by decide)
    (by decide) (by decide)

/-- C5: `canResume` is true iff the session identifier is non-null and either
no heartbeat acknowledgment has ever occurred or the time since the last one
is at most the freshness threshold; it is false whenever the session
identifier is null.  (Acknowledgment timestamps are `Date.now()` values, hence
positive — the hypothesis `hpos`.) -/
theorem canResume_characterization (threshold now : Nat) (sid : Option String)
    (lastAck : Option Nat) (hpos : ∀ t, lastAck = some t → 0 < t) :
    (canResume threshold now sid lastAck = true ↔
      (sid ≠ none
        ∧ (lastAck = none
            ∨ ∃ t, lastAck = some t ∧ (now : Int) - (t : Int) ≤ (threshold : Int))))
    ∧ (sid = none → canResume threshold now sid lastAck = false) := by
  constructor
  · cases sid with
    | none => simp [canResume]
    | some s =>
      cases lastAck with
      | none => simp [canResume]
      | some t =>
        have ht : (t == 0) = false :=
          beq_eq_false_iff_ne.mpr (Nat.pos_iff_ne_zero.mp (hpos t rfl))
        simp [canResume, ht]
  · intro h
    subst h
    simp [canResume]

/-- Witness for C5: concrete threshold 100, time 50, session "s", last ack 10. -/
theorem canResume_characterization_witness :
    (canResume 100 50 (some "s") (some 10) = true ↔
      ((some "s" : Option String) ≠ none
        ∧ ((some 10 : Option Nat) = none
            ∨ ∃ t, (some 10 : Option Nat) = some t ∧ (50 : Int) - (t : Int) ≤ (100 : Int))))
    ∧ ((some "s" : Option String) = none → canResume 100 50 (some "s") (some 10) = false) :=
  canResume_characterization 100 50 (some "s") (some 10)
    (fun t h => by injection h with h; omega)

/-- C6: while a cool-down entry's expiry lies in the future, a change event
(update or delete) for that guild invokes no claim race and leaves the entry
in place; when no entry exists or the expiry is in the past, the event removes
the entry and invokes the claim race exactly once.  In all four parts the
guild is tracked, the alias differs (for updates) and the ignore-list does not
suppress the change. -/
theorem cooldown_gates_claim_race :
    (∀ (cfg : Config) (now : Nat) (st : ClientState) (g p : Guild) (iv : Nat),
      jsGet st.guilds g.id = some p →
      (p.vanity_url_code == g.vanity_url_code) = false →
      (cfg.ignoreHostGuilds && st.pool.guilds.contains g.id) = false →
      jsGet st.sameGuildIntervals g.id = some iv → now < iv →
      (onDispatch cfg now st (DispatchEvent.guildUpdate g)).2 = []
      ∧ jsGet (onDispatch cfg now st (DispatchEvent.guildUpdate g)).1.sameGuildIntervals g.id
          = some iv)
    ∧ (∀ (cfg : Config) (now : Nat) (st : ClientState) (g p : Guild),
      jsGet st.guilds g.id = some p →
      (p.vanity_url_code == g.vanity_url_code) = false →
      (cfg.ignoreHostGuilds && st.pool.guilds.contains g.id) = false →
      (jsGet st.sameGuildIntervals g.id = none
        ∨ ∃ iv, jsGet st.sameGuildIntervals g.id = some iv ∧ iv < now) →
      (onDispatch cfg now st (DispatchEvent.guildUpdate g)).2 =
        [{ vanity := p.vanity_url_code, id := g.id }]
      ∧ jsGet (onDispatch cfg now st (DispatchEvent.guildUpdate g)).1.sameGuildIntervals g.id
          = none)
    ∧ (∀ (cfg : Config) (now : Nat) (st : ClientState) (d : DeleteData)
        (guild : Guild) (iv : Nat),
      jsGet st.guilds d.guild_id = some guild →
      (cfg.ignoreHostGuilds && st.pool.guilds.contains guild.id) = false →
      jsGet st.sameGuildIntervals guild.id = some iv → now < iv →
      (onDispatch cfg now st (DispatchEvent.guildDelete d)).2 = []
      ∧ jsGet (onDispatch cfg now st (DispatchEvent.guildDelete d)).1.sameGuildIntervals guild.id
          = some iv)
    ∧ (∀ (cfg : Config) (now : Nat) (st : ClientState) (d : DeleteData) (guild : Guild),
      jsGet st.guilds d.guild_id = some guild →
      (cfg.ignoreHostGuilds && st.pool.guilds.contains guild.id) = false →
      (jsGet st.sameGuildIntervals guild.id = none
        ∨ ∃ iv, jsGet st.sameGuildIntervals guild.id = some iv ∧ iv < now) →
      (onDispatch cfg now st (DispatchEvent.guildDelete d)).2 =
        [{ vanity := guild.vanity_url_code, id := guild.id }]
      ∧ jsGet (onDispatch cfg now st (DispatchEvent.guildDelete d)).1.sameGuildIntervals guild.id
          = none) := by
  refine ⟨?_, ?_, ?_, ?_⟩
  · intro cfg now st g p iv hp hdiff hign hiv hlt
    simp [onDispatch, hp, hdiff, ignore_gate_false cfg st.pool.guilds g.id hign,
      hiv, cooldownPassed_future iv now hlt]
  · intro cfg now st g p hp hdiff hign hdisj
    have hcp : cooldownPassed (jsGet st.sameGuildIntervals g.id) now = true := by
      rcases hdisj with h | ⟨iv, hiv, hlt⟩
      · rw [h]; rfl
      · rw [hiv]; exact cooldownPassed_past iv now hlt
    simp [onDispatch, hp, hdiff, ignore_gate_false cfg st.pool.guilds g.id hign,
      hcp, jsGet_jsDelete]
  · intro cfg now st d guild iv hd hign hiv hlt
    simp [onDispatch, hd, ignore_gate_false cfg st.pool.guilds guild.id hign,
      hiv, cooldownPassed_future iv now hlt]
  · intro cfg now st d guild hd hign hdisj
    have hcp : cooldownPassed (jsGet st.sameGuildIntervals guild.id) now = true := by
      rcases hdisj with h | ⟨iv, hiv, hlt⟩
      · rw [h]; rfl
      · rw [hiv]; exact cooldownPassed_past iv now hlt
    simp [onDispatch, hd, ignore_gate_false cfg st.pool.guilds guild.id hign,
      hcp, jsGet_jsDelete]

/-- Witness for C6: with a cool-down entry for "g1" expiring at 100, an update
at time 50 is suppressed, while at time 200 it races and clears the entry. -/
theorem cooldown_gates_claim_race_witness :
    ((onDispatch cfg0 50 stCool (DispatchEvent.guildUpdate gXyz)).2 = []
      ∧ jsGet (onDispatch cfg0 50 stCool (DispatchEvent.guildUpdate gXyz)).1.sameGuildIntervals
          gXyz.id = some 100)
    ∧ ((onDispatch cfg0 200 stCool (DispatchEvent.guildUpdate gXyz)).2 =
        [{ vanity := gAbc.vanity_url_code, id := gXyz.id }]
      ∧ jsGet (onDispatch cfg0 200 stCool (DispatchEvent.guildUpdate gXyz)).1.sameGuildIntervals
          gXyz.id = none) :=
  ⟨cooldown_gates_claim_race.1 cfg0 50 stCool gXyz gAbc 100 (by decide) (by decide)
      (by decide) (by decide) (by decide),
   cooldown_gates_claim_race.2.1 cfg0 200 stCool gXyz gAbc (by decide) (by decide)
      (by decide) (Or.inr ⟨100, by decide, by decide⟩)⟩

/-- C3 (amended): the initial READY snapshot admits only resources with a
non-empty vanity code, and guild-create, guild-delete and resume preserve the
"every tracked guild has a non-empty vanity" invariant — but GUILD_UPDATE does
not (it stores the incoming guild unconditionally), so the original claim's
"every subsequent watch-set operation" fails; see the counterexample. -/
theorem watch_set_invariant_amended :
    (∀ (cfg : Config) (now : Nat) (st : ClientState) (d : ReadyData),
      watchInvariant (onDispatch cfg now st (DispatchEvent.ready d)).1.guilds = true)
    ∧ (∀ (cfg : Config) (now : Nat) (st : ClientState) (e : DispatchEvent),
      (∀ g, e ≠ DispatchEvent.guildUpdate g) →
      watchInvariant st.guilds = true →
      watchInvariant (onDispatch cfg now st e).1.guilds = true) := by
  constructor
  · intro cfg now st d
    exact watchInvariant_fold d.guilds [] rfl
  · intro cfg now st e hne hInv
    cases e with
    | ready d => exact watchInvariant_fold d.guilds [] rfl
    | guildUpdate g => exact absurd rfl (hne g)
    | guildDelete d =>
      simp only [onDispatch]
      cases hjg : jsGet st.guilds d.guild_id with
      | none => simpa using hInv
      | some guild =>
        simp only [hjg]
        split
        · exact all_jsDelete st.guilds guild.id _ hInv
        · split
          · exact all_jsDelete st.guilds guild.id _ hInv
          · exact all_jsDelete st.guilds guild.id _ hInv
    | guildCreate g? =>
      cases g? with
      | none => simpa [onDispatch] using hInv
      | some g =>
        simp only [onDispatch]
        by_cases hg : jsTruthyStr g.vanity_url_code = true
        · rw [if_pos hg]
          exact all_jsSet st.guilds g.id g _ hInv hg
        · rw [if_neg hg]
          exact hInv
    | resumed => simpa [onDispatch] using hInv
    | other => simpa [onDispatch] using hInv

/-- Witness for C3: the amended preservation applied at a READY snapshot
containing a no-vanity guild (which is filtered out) and at a RESUMED event. -/
theorem watch_set_invariant_amended_witness :
    watchInvariant (onDispatch cfg0 0 stA
      (DispatchEvent.ready { session_id := "sess", user := ⟨"u"⟩,
                             guilds := [gAbc, gNoVan] })).1.guilds = true
    ∧ watchInvariant (onDispatch cfg0 0 stA DispatchEvent.resumed).1.guilds = true :=
  ⟨watch_set_invariant_amended.1 cfg0 0 stA
      { session_id := "sess", user := ⟨"u"⟩, guilds := [gAbc, gNoVan] },
   watch_set_invariant_amended.2 cfg0 0 stA DispatchEvent.resumed
      (fun g h => DispatchEvent.noConfusion h) (by decide)⟩

/-- Counterexample for C3 as stated: a GUILD_UPDATE carrying a guild with no
vanity code is stored unconditionally (index.ts line 166), so the watch set
ends up holding a resource whose alias is empty. -/
theorem watch_set_invariant_cex :
    watchInvariant stA.guilds = true
    ∧ (onDispatch cfg0 50 stA (DispatchEvent.guildUpdate gNoVan)).1.guilds
        = [("g1", gAbc), ("g2", gNoVan)]
    ∧ watchInvariant (onDispatch cfg0 50 stA (DispatchEvent.guildUpdate gNoVan)).1.guilds
        = false := by
  decide

/-- C4 (amended): a claim attempt that issues the mutating request sets the
cool-down for the origin resource to "now + configured timeout" whenever the
call runs to completion — i.e. on success without exit-on-snipe and on
conflict/other failure.  It is NOT set when the attempt is abandoned after a
rate limit (the code returns early; see the counterexample) nor when the
process exits. -/
theorem cooldown_set_on_completed_attempt (cfg : Config) (vanity : Option String)
    (id : String) (now : Nat) (resp : Response) (tries : Int) (st : SnipeState)
    (hguard : noTargets cfg st = false)
    (h429 : (resp.statusCode == 429 && jsTruthyNat resp.retry_after) = false)
    (hnoexit : (vanityMatches resp.code vanity && cfg.exitOnSnipe) = false) :
    jsGet (snipeAux cfg vanity id now [resp] tries st).final.sameGuildIntervals id
      = some (now + cfg.sameGuildSnipeTimeout) := by
  unfold snipeAux
  rw [if_neg (by simp [hguard])]
  by_cases hvm : vanityMatches resp.code vanity = true
  · rw [hvm, Bool.true_and] at hnoexit
    simp [h429, hvm, hnoexit, jsGet_jsSet]
  · simp only [Bool.not_eq_true] at hvm
    simp [h429, hvm, jsGet_jsSet]

/-- Witness for C4: a conflict response on a concrete state leaves the
cool-down for "g1" set to 1000 + 30000. -/
theorem cooldown_set_on_completed_attempt_witness :
    jsGet (snipeAux cfg0 (some "abc") "g1" 1000 [conflictResp] 0 st1).final.sameGuildIntervals
      "g1" = some (1000 + cfg0.sameGuildSnipeTimeout) :=
  cooldown_set_on_completed_attempt cfg0 (some "abc") "g1" 1000 conflictResp 0 st1
    (by decide) (by decide) (by decide)

/-- Counterexample for C4 as stated: a rate-limit abandonment completes the
call (no process exit) yet leaves no cool-down entry for the origin resource,
because the give-up branch returns before the cool-down assignment. -/
theorem cooldown_not_set_on_rate_limit_abandon :
    (snipeAux cfg0 (some "abc") "g1" 1000 [rl500] 0 st1).abandoned = true
    ∧ (snipeAux cfg0 (some "abc") "g1" 1000 [rl500] 0 st1).exited = none
    ∧ jsGet (snipeAux cfg0 (some "abc") "g1" 1000 [rl500] 0 st1).final.sameGuildIntervals "g1"
        = none := by
  decide

lemma guilds_isEmpty_false (st : SnipeState) (h : st.pool.guilds ≠ []) :
    st.pool.guilds.isEmpty = false := by
  cases hg : st.pool.guilds with
  | nil => exact absurd hg h
  | cons a l => rfl

lemma noTargets_of_nonempty (cfg : Config) (st : SnipeState)
    (h : st.pool.guilds ≠ []) : noTargets cfg st = false := by
  simp [noTargets, guilds_isEmpty_false st h]

/-- C7: a successful claim (applied code equals the candidate) removes exactly
the head of the active pool and appends it to the tail of the rotated-back
queue, and sends the notification sink one message containing the claimed
alias; any run whose responses never match the candidate (rate limits,
conflicts) removes nothing from the pool and sends nothing. -/
theorem snipe_success_rotates_exactly_one :
    (∀ (cfg : Config) (vanity : Option String) (id : String) (now : Nat)
        (resp : Response) (tries : Int) (st : SnipeState) (g0 : String)
        (gs rot : List String),
      st.pool = Pool.separate (g0 :: gs) rot →
      (resp.statusCode == 429 && jsTruthyNat resp.retry_after) = false →
      vanityMatches resp.code vanity = true →
      (snipeAux cfg vanity id now [resp] tries st).final.pool
          = Pool.separate gs (rot ++ [g0])
      ∧ (snipeAux cfg vanity id now [resp] tries st).consumed = [g0]
      ∧ ∃ v, vanity = some v
          ∧ (snipeAux cfg vanity id now [resp] tries st).webhookMessages
              = ["Sniped https://discord.gg/" ++ v]
          ∧ ∃ pre post, "Sniped https://discord.gg/" ++ v = pre ++ v ++ post)
    ∧ (∀ (cfg : Config) (vanity : Option String) (id : String) (now : Nat)
        (responses : List Response) (tries : Int) (st : SnipeState),
      st.pool.guilds ≠ [] →
      (∀ r ∈ responses, vanityMatches r.code vanity = false) →
      (snipeAux cfg vanity id now responses tries st).final.pool = st.pool
      ∧ (snipeAux cfg vanity id now responses tries st).consumed = []
      ∧ (snipeAux cfg vanity id now responses tries st).webhookMessages = []) := by
  constructor
  · intro cfg vanity id now resp tries st g0 gs rot hpool h429 hvm
    obtain ⟨v, hv⟩ : ∃ v, vanity = some v := by
      cases vanity with
      | none => simp [vanityMatches] at hvm
      | some v => exact ⟨v, rfl⟩
    subst hv
    obtain ⟨pool, intervals⟩ := st
    simp only at hpool
    subst hpool
    refine ⟨?_, ?_, v, rfl, ?_, "Sniped https://discord.gg/", "", ?_⟩
    · by_cases he : cfg.exitOnSnipe = true <;>
        simp [snipeAux, noTargets, Pool.guilds, Pool.rotated, Pool.rotateOut,
          h429, hvm, he]
    · by_cases he : cfg.exitOnSnipe = true <;>
        simp [snipeAux, noTargets, Pool.guilds, Pool.rotated, Pool.rotateOut,
          h429, hvm, he]
    · by_cases he : cfg.exitOnSnipe = true <;>
        simp [snipeAux, noTargets, Pool.guilds, Pool.rotated, Pool.rotateOut,
          h429, hvm, he, jsTemplate]
    · simp
  · intro cfg vanity id now responses tries st hne hall
    revert tries hall
    induction responses with
    | nil =>
      intro tries hall
      unfold snipeAux
      rw [if_neg (by simp [noTargets_of_nonempty cfg st hne])]
      simp [guilds_isEmpty_false st hne]
    | cons r rest ih =>
      intro tries hall
      have hvm : vanityMatches r.code vanity = false := hall r (by simp)
      unfold snipeAux
      rw [if_neg (by simp [noTargets_of_nonempty cfg st hne])]
      simp only [guilds_isEmpty_false st hne, Bool.false_and, Bool.if_false_left,
        Bool.and_true]
      by_cases h429 : (r.statusCode == 429 && jsTruthyNat r.retry_after) = true
      · by_cases hrt : cfg.retries < tries
        · obtain ⟨ih1, ih2, ih3⟩ :=
            ih tries (fun r hr => hall r (List.mem_cons_of_mem _ hr))
          simp [h429, hrt, ih1, ih2, ih3]
        · simp [h429, hrt]
      · simp only [Bool.not_eq_true] at h429
        simp [h429, hvm]

/-- Witness for C7: on a concrete pool `["host1", "host2"]` with rotated list
`["old1"]`, a success for "abc" moves "host1" to the rotated tail and sends a
message containing "abc"; a conflict run removes nothing. -/
theorem snipe_success_rotates_exactly_one_witness :
    ((snipeAux cfg0 (some "abc") "g1" 1000 [okResp] 0 st1).final.pool
        = Pool.separate ["host2"] (["old1"] ++ ["host1"])
      ∧ (snipeAux cfg0 (some "abc") "g1" 1000 [okResp] 0 st1).consumed = ["host1"]
      ∧ ∃ v, (some "abc" : Option String) = some v
          ∧ (snipeAux cfg0 (some "abc") "g1" 1000 [okResp] 0 st1).webhookMessages
              = ["Sniped https://discord.gg/" ++ v]
          ∧ ∃ pre post, "Sniped https://discord.gg/" ++ v = pre ++ v ++ post)
    ∧ ((snipeAux cfg0 (some "abc") "g1" 1000 [conflictResp] 0 st1).final.pool = st1.pool
      ∧ (snipeAux cfg0 (some "abc") "g1" 1000 [conflictResp] 0 st1).consumed = []
      ∧ (snipeAux cfg0 (some "abc") "g1" 1000 [conflictResp] 0 st1).webhookMessages = []) :=
  ⟨snipe_success_rotates_exactly_one.1 cfg0 (some "abc") "g1" 1000 okResp 0 st1
      "host1" ["host2"] ["old1"] (by decide) (by decide) (by decide),
   snipe_success_rotates_exactly_one.2 cfg0 (some "abc") "g1" 1000 [conflictResp] 0 st1
      (by decide) (fun r hr => by
        simp only [List.mem_singleton] at hr
        subst hr
        decide)⟩
